import Mathlib

/-
Verification of the AES key-wrap provider
(providers/common/ciphers/cipher_aes_wrp.c).

Modelling conventions:
* a byte is a `Nat` (values 0..255 where relevant);
* a semiblock (8 bytes) is represented by its big-endian value (a `Nat`);
* a 16-byte block-cipher block is a pair of semiblocks `Nat × Nat`;
* the underlying AES block routines (`AES_encrypt` / `AES_decrypt` bound to the
  session's key schedule) are opaque functions `E D : Nat × Nat → Nat × Nat`,
  passed as parameters, matching the spec's Block Cipher Adapter contract;
* C `size_t` is `Nat`, C `int` is `Int`; the conversion of a (possibly
  negative) `int` into `size_t` is explicit: `(i % 2 ^ 64).toNat`;
* fallible calls return their C status (`Int` / `Bool`) together with the
  resulting state and any bytes written; a `NULL` pointer argument is `none`.
-/

/-- Big-endian value of a byte list (most significant byte first). -/
def beVal (bs : List Nat) : Nat :=
  bs.foldl (fun a b => a * 256 + b) 0

/-- The 8-byte big-endian encoding of a semiblock value (low 64 bits). -/
def sbBytes (v : Nat) : List Nat :=
  [v / 2 ^ 56 % 256, v / 2 ^ 48 % 256, v / 2 ^ 40 % 256, v / 2 ^ 32 % 256,
   v / 2 ^ 24 % 256, v / 2 ^ 16 % 256, v / 2 ^ 8 % 256, v % 256]

/-- Split a byte list into semiblock values, 8 bytes at a time (big-endian);
trailing bytes that do not fill a semiblock are dropped (callers guard the
length). -/
def toSemiblocks : List Nat → List Nat
  | b0 :: b1 :: b2 :: b3 :: b4 :: b5 :: b6 :: b7 :: rest =>
      beVal [b0, b1, b2, b3, b4, b5, b6, b7] :: toSemiblocks rest
  | _ => []

/-- Serialize a list of semiblock values back to bytes. -/
def fromSemiblocks (l : List Nat) : List Nat :=
  l.foldr (fun v acc => sbBytes v ++ acc) []

/-- Modelled from the spec (section 4.1): one inner pass `i = 1..n` of the
wrap loop, at counter value `t` for the head.  Each step encrypts
`A parallel R[i]`, xors the counter into the high half (the new accumulator)
and keeps the low half as the new `R[i]`.  The block cipher `E` is the opaque
adapter.  (`CRYPTO_128_wrap` lives in crypto/modes/wrap128.c, outside src/.) -/
def wrapRound (E : Nat × Nat → Nat × Nat) : Nat → Nat → List Nat → Nat × List Nat
  | _, A, [] => (A, [])
  | t, A, r :: rs =>
    ((wrapRound E (t + 1) ((E (A, r)).1 ^^^ t) rs).1,
     (E (A, r)).2 :: (wrapRound E (t + 1) ((E (A, r)).1 ^^^ t) rs).2)

/-- Modelled from the spec (section 4.1): the inverse inner pass, undoing the
counter values from the top down (`D` is the block-cipher decrypt adapter). -/
def unwrapRound (D : Nat × Nat → Nat × Nat) : Nat → Nat → List Nat → Nat × List Nat
  | _, A, [] => (A, [])
  | t, A, r :: rs =>
    ((D ((unwrapRound D (t + 1) A rs).1 ^^^ t, r)).1,
     (D ((unwrapRound D (t + 1) A rs).1 ^^^ t, r)).2 :: (unwrapRound D (t + 1) A rs).2)

/-- Modelled from the spec (section 4.1): rounds `j, j+1, ..., j+k-1` of the
wrap transform; round `j` runs the inner pass with counters starting at
`n*j + 1`. -/
def wrapFrom (E : Nat × Nat → Nat × Nat) (n : Nat) : Nat → Nat → Nat → List Nat → Nat × List Nat
  | _, 0, A, R => (A, R)
  | j, k + 1, A, R =>
    wrapFrom E n (j + 1) k (wrapRound E (n * j + 1) A R).1 (wrapRound E (n * j + 1) A R).2

/-- Modelled from the spec (section 4.1): the inverse of `wrapFrom`, undoing
the later rounds first. -/
def unwrapFrom (D : Nat × Nat → Nat × Nat) (n : Nat) : Nat → Nat → Nat → List Nat → Nat × List Nat
  | _, 0, A, R => (A, R)
  | j, k + 1, A, R =>
    unwrapRound D (n * j + 1) (unwrapFrom D n (j + 1) k A R).1 (unwrapFrom D n (j + 1) k A R).2

/-- The default plain-mode IV constant 0xA6A6A6A6A6A6A6A6 (spec section 4.1). -/
def defaultIV : Nat := 0xA6A6A6A6A6A6A6A6

/-- Modelled from the spec (section 4.1): `CRYPTO_128_wrap` at semiblock
granularity.  Requires at least two plaintext semiblocks; runs the six rounds
starting from the IV (the default constant when the caller supplied none) and
returns the accumulator followed by the transformed semiblocks.
(The function itself lives in crypto/modes/wrap128.c, outside src/.) -/
def CRYPTO_128_wrap (E : Nat × Nat → Nat × Nat) (iv : Option Nat)
    (inb : List Nat) : Option (List Nat) :=
  if inb.length < 2 then none
  else
    some ((wrapFrom E inb.length 0 6 (iv.getD defaultIV) inb).1 ::
          (wrapFrom E inb.length 0 6 (iv.getD defaultIV) inb).2)

/-- Modelled from the spec (section 4.1): `CRYPTO_128_unwrap` at semiblock
granularity.  Splits off the transmitted accumulator, undoes the six rounds,
and releases the plaintext only when the recovered accumulator equals the
expected IV (integrity check). -/
def CRYPTO_128_unwrap (D : Nat × Nat → Nat × Nat) (iv : Option Nat)
    (inb : List Nat) : Option (List Nat) :=
  match inb with
  | [] => none
  | A :: R =>
    if R.length < 2 then none
    else if (unwrapFrom D R.length 0 6 A R).1 = iv.getD defaultIV then
      some (unwrapFrom D R.length 0 6 A R).2
    else none

/-- Byte-level entry for `CRYPTO_128_wrap`: the caller IV is an 8-byte buffer,
the message must be a multiple of 8 bytes and at least 16 bytes long. -/
def CRYPTO_128_wrap_bytes (E : Nat × Nat → Nat × Nat) (iv : Option (List Nat))
    (inb : List Nat) : Option (List Nat) :=
  if inb.length < 16 ∨ inb.length % 8 ≠ 0 then none
  else (CRYPTO_128_wrap E (iv.map beVal) (toSemiblocks inb)).map fromSemiblocks

/-- Byte-level entry for `CRYPTO_128_unwrap`. -/
def CRYPTO_128_unwrap_bytes (D : Nat × Nat → Nat × Nat) (iv : Option (List Nat))
    (inb : List Nat) : Option (List Nat) :=
  if inb.length < 16 ∨ inb.length % 8 ≠ 0 then none
  else (CRYPTO_128_unwrap D (iv.map beVal) (toSemiblocks inb)).map fromSemiblocks

/-- The alternate 4-byte IV constant 0xA65959A6 of the padded variant
(spec section 4.2), as bytes. -/
def altICV : List Nat := [0xA6, 0x59, 0x59, 0xA6]

/-- The 4-byte big-endian encoding of a message-length indicator. -/
def be4Bytes (v : Nat) : List Nat :=
  [v / 2 ^ 24 % 256, v / 2 ^ 16 % 256, v / 2 ^ 8 % 256, v % 256]

/-- Modelled from the spec (section 4.2): `CRYPTO_128_wrap_pad`
(crypto/modes/wrap128.c, outside src/).  Builds the alternate-IV-plus-MLI
accumulator, zero-pads the message to a semiblock boundary, and either
performs the single-block shortcut (one semiblock of padded data) or the full
six-round transform. -/
def CRYPTO_128_wrap_pad (E : Nat × Nat → Nat × Nat) (icv : Option (List Nat))
    (inb : List Nat) : Option (List Nat) :=
  if inb.length = 0 then none
  else
    let aiv := beVal ((icv.getD altICV).take 4 ++ be4Bytes inb.length)
    let R := toSemiblocks (inb ++ List.replicate ((8 - inb.length % 8) % 8) 0)
    if R.length = 1 then
      some (fromSemiblocks [(E (aiv, R.headD 0)).1, (E (aiv, R.headD 0)).2])
    else
      some (fromSemiblocks ((wrapFrom E R.length 0 6 aiv R).1 ::
                            (wrapFrom E R.length 0 6 aiv R).2))

/-- Modelled from the spec (section 4.2): `CRYPTO_128_unwrap_pad`.  Recovers
the accumulator (single-block shortcut for 16-byte ciphertext, inverse
six-round transform otherwise), checks the alternate IV constant and the
message-length indicator range, and truncates to the indicated length.
Any validation failure yields no output at all. -/
def CRYPTO_128_unwrap_pad (D : Nat × Nat → Nat × Nat) (icv : Option (List Nat))
    (inb : List Nat) : Option (List Nat) :=
  if inb.length < 16 ∨ inb.length % 8 ≠ 0 then none
  else
    let S := toSemiblocks inb
    let AR : Nat × List Nat :=
      if S.length = 2 then ((D (S.headD 0, S.getD 1 0)).1, [(D (S.headD 0, S.getD 1 0)).2])
      else ((unwrapFrom D S.tail.length 0 6 (S.headD 0) S.tail).1,
            (unwrapFrom D S.tail.length 0 6 (S.headD 0) S.tail).2)
    let mli := AR.1 % 2 ^ 32
    if AR.1 / 2 ^ 32 ≠ beVal ((icv.getD altICV).take 4) then none
    else if mli = 0 ∨ 8 * AR.2.length < mli ∨ mli + 7 < 8 * AR.2.length then none
    else some ((fromSemiblocks AR.2).take mli)

/-- The stored `ctx->block` function pointer: `AES_encrypt` or `AES_decrypt`
bound to the session's key schedule (cipher_aes_wrp.c line 76). -/
inductive BlockSel where
  | aesEncrypt
  | aesDecrypt
deriving DecidableEq

/-- The stored `wctx->wrapfn` function pointer (cipher_aes_wrp.c lines 77-80):
one of `CRYPTO_128_wrap`, `CRYPTO_128_unwrap`, `CRYPTO_128_wrap_pad`,
`CRYPTO_128_unwrap_pad`. -/
inductive WrapSel where
  | wrapPlain
  | unwrapPlain
  | wrapPad
  | unwrapPad
deriving DecidableEq

/-- The `AES_KEY` schedule in `wctx->ks.ks`: modelled by the raw key bytes it
was expanded from and the direction it was expanded for
(`AES_set_encrypt_key` vs `AES_set_decrypt_key`, lines 92-95). -/
structure AesKeySchedule where
  keyBytes : List Nat
  forEncrypt : Bool
deriving DecidableEq

/-- The provider context `PROV_AES_WRAP_CTX` (cipher_aes_wrp.c lines 33-42),
with the `PROV_CIPHER_CTX base` fields the file uses flattened in.  Fields
that the C context zero-initializes to "unset" function pointers or absent
key material are `Option`s. -/
structure PROV_AES_WRAP_CTX where
  keylen : Nat
  ivlen : Nat
  iv : List Nat
  mode : Nat
  flags : Nat
  pad : Bool
  enc : Bool
  block : Option BlockSel
  iv_set : Bool
  ks : Option AesKeySchedule
  wrapfn : Option WrapSel
deriving DecidableEq

/-- The zero-filled context produced by `OPENSSL_zalloc` (line 48): all
numeric fields 0, flags false, the 16-byte `iv` array all zero, function
pointers and key material unset. -/
def zallocCtx : PROV_AES_WRAP_CTX :=
  { keylen := 0, ivlen := 0, iv := List.replicate 16 0, mode := 0, flags := 0,
    pad := false, enc := false, block := none, iv_set := false, ks := none,
    wrapfn := none }

/-- Modelled from the spec (section 4.4): `cipher_generic_initkey`
(providers/common/cipher_common.c, outside src/) records the variant's fixed
configuration in the context: key size and IV length (converted from bits to
bytes), mode and flags. -/
def cipher_generic_initkey (c : PROV_AES_WRAP_CTX) (kbits blkbits ivbits mode flags : Nat) :
    PROV_AES_WRAP_CTX :=
  let _ := blkbits
  { c with keylen := kbits / 8, ivlen := ivbits / 8, mode := mode, flags := flags }

/-- `aes_wrap_newctx` (cipher_aes_wrp.c lines 45-57): allocate a zeroed
context, record the variant configuration, and fix the padding flag from the
configured IV length (`AES_WRAP_PAD_IVLEN` is 4). -/
def aes_wrap_newctx (kbits blkbits ivbits mode flags : Nat) : PROV_AES_WRAP_CTX :=
  let ctx := cipher_generic_initkey zallocCtx kbits blkbits ivbits mode flags
  { ctx with pad := decide (ctx.ivlen = 4) }

/-- `aes_wrap_init` (cipher_aes_wrp.c lines 68-98).  Returns the mutated
context together with the C status (`true` for 1, `false` for 0).  Mirrors
the source's order: direction, block function and wrap function are stored
first, a supplied IV is copied next, and only then is a supplied key checked
against the configured key length and expanded. -/
def aes_wrap_init (c : PROV_AES_WRAP_CTX) (key : Option (List Nat)) (keylen : Nat)
    (iv : Option (List Nat)) (ivlen : Nat) (enc : Bool) :
    PROV_AES_WRAP_CTX × Bool :=
  let c1 := { c with
    enc := enc,
    block := some (if enc then BlockSel.aesEncrypt else BlockSel.aesDecrypt),
    wrapfn := some (if c.pad then (if enc then WrapSel.wrapPad else WrapSel.unwrapPad)
                    else (if enc then WrapSel.wrapPlain else WrapSel.unwrapPlain)) }
  let c2 := match iv with
    | some ivb => { c1 with ivlen := ivlen, iv := ivb.take ivlen ++ c1.iv.drop ivlen,
                            iv_set := true }
    | none => c1
  match key with
  | some kb =>
    if keylen ≠ c2.keylen then (c2, false)
    else ({ c2 with ks := some ⟨kb, enc⟩ }, true)
  | none => (c2, true)

/-- `aes_wrap_einit` (lines 100-104): init in the encrypt direction. -/
def aes_wrap_einit (c : PROV_AES_WRAP_CTX) (key : Option (List Nat)) (keylen : Nat)
    (iv : Option (List Nat)) (ivlen : Nat) : PROV_AES_WRAP_CTX × Bool :=
  aes_wrap_init c key keylen iv ivlen true

/-- `aes_wrap_dinit` (lines 106-110): init in the decrypt direction. -/
def aes_wrap_dinit (c : PROV_AES_WRAP_CTX) (key : Option (List Nat)) (keylen : Nat)
    (iv : Option (List Nat)) (ivlen : Nat) : PROV_AES_WRAP_CTX × Bool :=
  aes_wrap_init c key keylen iv ivlen false

/-- The call `wctx->wrapfn(&wctx->ks.ks, wctx->iv_set ? ctx->iv : NULL, out,
in, inlen, ctx->block)` (lines 153-154): dispatch on the stored selectors.
`E` and `D` are the opaque `AES_encrypt`/`AES_decrypt` adapters under the
session's key schedule.  A `none` result models the 0 return of the
`CRYPTO_128_*` routines (failure, nothing written). -/
def runWrapFn (E D : Nat × Nat → Nat × Nat) (c : PROV_AES_WRAP_CTX)
    (inb : List Nat) : Option (List Nat) :=
  match c.wrapfn, c.block with
  | some wf, some bsel =>
    let blockF := match bsel with
      | BlockSel.aesEncrypt => E
      | BlockSel.aesDecrypt => D
    let ivArg : Option (List Nat) := if c.iv_set then some (c.iv.take c.ivlen) else none
    match wf with
    | WrapSel.wrapPlain => CRYPTO_128_wrap_bytes blockF ivArg inb
    | WrapSel.unwrapPlain => CRYPTO_128_unwrap_bytes blockF ivArg inb
    | WrapSel.wrapPad => CRYPTO_128_wrap_pad blockF ivArg inb
    | WrapSel.unwrapPad => CRYPTO_128_unwrap_pad blockF ivArg inb
  | _, _ => none

/-- `aes_wrap_cipher_internal` (cipher_aes_wrp.c lines 112-156).  The first
component is the C `int` return value, the second the bytes written through
`out` (`none` when nothing is written).  `outPresent` is whether `out` is a
real buffer (`false` models the size-query `NULL`); `inp` is the `in`
pointer. -/
def aes_wrap_cipher_internal (E D : Nat × Nat → Nat × Nat) (c : PROV_AES_WRAP_CTX)
    (outPresent : Bool) (inp : Option (List Nat)) : Int × Option (List Nat) :=
  match inp with
  | none => (0, none)
  | some inb =>
    if inb.length = 0 then (-1, none)
    else if c.enc = false ∧ (inb.length < 16 ∨ inb.length % 8 ≠ 0) then (-1, none)
    else if c.pad = false ∧ inb.length % 8 ≠ 0 then (-1, none)
    else if outPresent = false then
      if c.enc = true then
        (((if c.pad then (inb.length + 7) / 8 * 8 else inb.length : Nat) : Int) + 8, none)
      else ((inb.length : Int) - 8, none)
    else
      match runWrapFn E D c inb with
      | some outb => ((outb.length : Int), some outb)
      | none => (-1, none)

/-- `aes_wrap_final` (cipher_aes_wrp.c lines 158-163): reports zero bytes
written and status 1, touching neither the context nor the output buffer. -/
def aes_wrap_final (c : PROV_AES_WRAP_CTX) (out : List Nat) (outsize : Nat) :
    PROV_AES_WRAP_CTX × List Nat × Nat × Int :=
  let _ := outsize
  (c, out, 0, 1)

/-- `aes_wrap_cipher` (cipher_aes_wrp.c lines 165-183).  Returns the C status,
the value stored through `*outl` (`none` when it is left unset), and the bytes
written through `out`.  The C local `size_t len` receives the `int` result of
the internal call, so the conversion modulo 2^64 is explicit here. -/
def aes_wrap_cipher (E D : Nat × Nat → Nat × Nat) (c : PROV_AES_WRAP_CTX)
    (outPresent : Bool) (outsize : Nat) (inp : Option (List Nat)) :
    Int × Option Nat × Option (List Nat) :=
  if outsize < (inp.getD []).length then (-1, none, none)
  else
    let r := aes_wrap_cipher_internal E D c outPresent inp
    let len : Nat := (r.1 % (2 : Int) ^ 64).toNat
    if len = 0 then (-1, none, r.2)
    else (1, some len, r.2)

/-- `aes_wrap_set_ctx_params` (cipher_aes_wrp.c lines 185-203).  The single
recognized parameter is `OSSL_CIPHER_PARAM_KEYLEN`: `none` models an absent
parameter, `some none` a present parameter `OSSL_PARAM_get_size_t` cannot
read, `some (some k)` a requested key length `k`.  The context is returned
unchanged in every case, as the C function never writes to it. -/
def aes_wrap_set_ctx_params (c : PROV_AES_WRAP_CTX) (p : Option (Option Nat)) :
    PROV_AES_WRAP_CTX × Bool :=
  match p with
  | none => (c, true)
  | some none => (c, false)
  | some (some k) => if c.keylen ≠ k then (c, false) else (c, true)

/-- One caller-visible operation on a live session, as exposed by the
variant's dispatch table (lines 218-239): both init entry points, update,
final and the parameter setter. -/
inductive SessionOp where
  | einit (key : Option (List Nat)) (keylen : Nat) (iv : Option (List Nat)) (ivlen : Nat)
  | dinit (key : Option (List Nat)) (keylen : Nat) (iv : Option (List Nat)) (ivlen : Nat)
  | update (outPresent : Bool) (outsize : Nat) (inp : Option (List Nat))
  | finalize (out : List Nat) (outsize : Nat)
  | setParams (p : Option (Option Nat))

/-- The context after one session operation.  `update`, `finalize` and
`setParams` never write to the context in the source; the init entry points
return their mutated context whether or not they succeed. -/
def applyOp (E D : Nat × Nat → Nat × Nat) (c : PROV_AES_WRAP_CTX) :
    SessionOp → PROV_AES_WRAP_CTX
  | SessionOp.einit key keylen iv ivlen => (aes_wrap_einit c key keylen iv ivlen).1
  | SessionOp.dinit key keylen iv ivlen => (aes_wrap_dinit c key keylen iv ivlen).1
  | SessionOp.update outPresent outsize inp =>
      let _ := aes_wrap_cipher E D c outPresent outsize inp
      c
  | SessionOp.finalize out outsize => (aes_wrap_final c out outsize).1
  | SessionOp.setParams p => (aes_wrap_set_ctx_params c p).1

/-- The context after a sequence of session operations. -/
def applyOps (E D : Nat × Nat → Nat × Nat) (c : PROV_AES_WRAP_CTX)
    (ops : List SessionOp) : PROV_AES_WRAP_CTX :=
  ops.foldl (applyOp E D) c

/-- A 128-bit no-padding session right after `aes_wrap_newctx` and a bare
encrypt init (no key, no IV), as registered by
`IMPLEMENT_cipher(wrap, wrap, WRAP, WRAP_FLAGS, 128, 64, 64)`. -/
def wrapCtx128 : PROV_AES_WRAP_CTX :=
  (aes_wrap_einit (aes_wrap_newctx 128 64 64 0 0) none 0 none 0).1

/-- The same 128-bit no-padding session after a bare decrypt init. -/
def unwrapCtx128 : PROV_AES_WRAP_CTX :=
  (aes_wrap_dinit (aes_wrap_newctx 128 64 64 0 0) none 0 none 0).1

theorem unwrapRound_wrapRound (E D : Nat × Nat → Nat × Nat)
    (hED : ∀ b, D (E b) = b) :
    ∀ (R : List Nat) (t A : Nat),
      unwrapRound D t (wrapRound E t A R).1 (wrapRound E t A R).2 = (A, R) := by
  intro R
  induction R with
  | nil => intro t A; simp [wrapRound, unwrapRound]
  | cons r rs ih =>
    intro t A
    simp only [wrapRound, unwrapRound, ih (t + 1) ((E (A, r)).1 ^^^ t)]
    rw [Nat.xor_cancel_right, Prod.mk.eta, hED]

theorem unwrapFrom_wrapFrom (E D : Nat × Nat → Nat × Nat)
    (hED : ∀ b, D (E b) = b) (n : Nat) :
    ∀ (k j A : Nat) (R : List Nat),
      unwrapFrom D n j k (wrapFrom E n j k A R).1 (wrapFrom E n j k A R).2 = (A, R) := by
  intro k
  induction k with
  | zero => intro j A R; simp [wrapFrom, unwrapFrom]
  | succ k ih =>
    intro j A R
    simp only [wrapFrom, unwrapFrom,
      ih (j + 1) (wrapRound E (n * j + 1) A R).1 (wrapRound E (n * j + 1) A R).2]
    exact unwrapRound_wrapRound E D hED R (n * j + 1) A

theorem wrapRound_length (E : Nat × Nat → Nat × Nat) :
    ∀ (R : List Nat) (t A : Nat), (wrapRound E t A R).2.length = R.length := by
  intro R
  induction R with
  | nil => intro t A; simp [wrapRound]
  | cons r rs ih => intro t A; simp [wrapRound, ih]

theorem wrapFrom_length (E : Nat × Nat → Nat × Nat) (n : Nat) :
    ∀ (k j A : Nat) (R : List Nat), (wrapFrom E n j k A R).2.length = R.length := by
  intro k
  induction k with
  | zero => intro j A R; simp [wrapFrom]
  | succ k ih => intro j A R; simp [wrapFrom, ih, wrapRound_length]

theorem applyOp_pad (E D : Nat × Nat → Nat × Nat) (c : PROV_AES_WRAP_CTX)
    (op : SessionOp) : (applyOp E D c op).pad = c.pad := by
  cases op with
  | einit key keylen iv ivlen =>
    simp only [applyOp, aes_wrap_einit, aes_wrap_init]
    cases key <;> cases iv <;> simp <;> split <;> simp
  | dinit key keylen iv ivlen =>
    simp only [applyOp, aes_wrap_dinit, aes_wrap_init]
    cases key <;> cases iv <;> simp <;> split <;> simp
  | update outPresent outsize inp => rfl
  | finalize out outsize => rfl
  | setParams p => cases p with
    | none => rfl
    | some q => cases q with
      | none => rfl
      | some k =>
        simp only [applyOp, aes_wrap_set_ctx_params]
        split <;> rfl

theorem applyOps_pad (E D : Nat × Nat → Nat × Nat) :
    ∀ (ops : List SessionOp) (c : PROV_AES_WRAP_CTX),
      (applyOps E D c ops).pad = c.pad := by
  intro ops
  induction ops with
  | nil => intro c; rfl
  | cons op rest ih =>
    intro c
    simp only [applyOps, List.foldl_cons]
    rw [show (List.foldl (applyOp E D) (applyOp E D c op) rest) =
          applyOps E D (applyOp E D c op) rest from rfl, ih, applyOp_pad]

/-- Claim C1: on an initialized session, a size-query Process call (no output
destination) performs no cryptographic work (the result holds for every block
cipher `E`, `D` and writes nothing) and returns input length + 8 for plain
wrap, roundUp8(input length) + 8 for padded wrap, and input length - 8 for
unwrap. -/
theorem claim_C1_size_query (E D : Nat × Nat → Nat × Nat) (c : PROV_AES_WRAP_CTX)
    (inb : List Nat) (h0 : inb.length ≠ 0) :
    (c.enc = true → c.pad = false → inb.length % 8 = 0 →
      aes_wrap_cipher_internal E D c false (some inb) = ((inb.length : Int) + 8, none))
    ∧ (c.enc = true → c.pad = true →
      aes_wrap_cipher_internal E D c false (some inb)
        = ((((inb.length + 7) / 8 * 8 : Nat) : Int) + 8, none))
    ∧ (c.enc = false → 16 ≤ inb.length → inb.length % 8 = 0 →
      aes_wrap_cipher_internal E D c false (some inb) = ((inb.length : Int) - 8, none)) := by
  refine ⟨?_, ?_, ?_⟩
  · intro h1 h2 h3
    simp [aes_wrap_cipher_internal, h0, h1, h2, h3]
  · intro h1 h2
    simp [aes_wrap_cipher_internal, h0, h1, h2]
  · intro h1 h2 h3
    simp [aes_wrap_cipher_internal, h0, h1, h3, Nat.not_lt.mpr h2]

/-- Witness for claim C1: a 128-bit no-padding decrypt session queried with a
16-byte input reports 8 output bytes. -/
theorem claim_C1_size_query_witness :
    aes_wrap_cipher_internal (fun b => b) (fun b => b) unwrapCtx128 false
      (some (List.replicate 16 0)) = (8, none) := by
  have h := (claim_C1_size_query (fun b => b) (fun b => b) unwrapCtx128
    (List.replicate 16 0) (by decide)).2.2 (by decide) (by decide) (by decide)
  simpa using h

/-- Claim C2 (code bug): invalid input lengths do make
`aes_wrap_cipher_internal` fail with -1, but `aes_wrap_cipher` stores that
`int` -1 into a `size_t` local and only compares it against 0, so the
caller-facing call reports success (status 1) with `*outl` set to 2^64 - 1:
a 7-byte plain-mode wrap input, a 15-byte unwrap input and a zero-length
input all "succeed" instead of surfacing an error status. -/
theorem claim_C2_invalid_length_bug :
    aes_wrap_cipher (fun b => b) (fun b => b) wrapCtx128 true 100
      (some [1, 2, 3, 4, 5, 6, 7]) = (1, some (2 ^ 64 - 1), none)
    ∧ aes_wrap_cipher (fun b => b) (fun b => b) unwrapCtx128 true 100
      (some (List.replicate 15 0)) = (1, some (2 ^ 64 - 1), none)
    ∧ aes_wrap_cipher (fun b => b) (fun b => b) wrapCtx128 true 100
      (some []) = (1, some (2 ^ 64 - 1), none) := by decide

/-- Claim C3: for every block cipher with a left-inverse decrypt (which covers
all three AES key sizes), every IV, and every plaintext of at least two
semiblocks (8·n bytes, n ≥ 2), unwrapping the wrap of the plaintext under the
same IV in plain mode returns exactly the plaintext. -/
theorem claim_C3_roundtrip (E D : Nat × Nat → Nat × Nat) (hED : ∀ b, D (E b) = b)
    (iv : Option Nat) (P C : List Nat) (h2 : 2 ≤ P.length)
    (hC : CRYPTO_128_wrap E iv P = some C) :
    CRYPTO_128_unwrap D iv C = some P := by
  have hlt : ¬ P.length < 2 := Nat.not_lt.mpr h2
  rw [CRYPTO_128_wrap, if_neg hlt] at hC
  have hC2 := Option.some.inj hC
  subst hC2
  have hlen : (wrapFrom E P.length 0 6 (iv.getD defaultIV) P).2.length = P.length :=
    wrapFrom_length E P.length 6 0 (iv.getD defaultIV) P
  have hinv := unwrapFrom_wrapFrom E D hED P.length 6 0 (iv.getD defaultIV) P
  simp only [CRYPTO_128_unwrap, hlen, if_neg hlt, hinv]
  simp

/-- Witness for claim C3: with the identity block cipher, unwrapping the wrap
of the two-semiblock plaintext [0, 0] returns it. -/
theorem claim_C3_roundtrip_witness :
    CRYPTO_128_unwrap (fun b => b) none [12008468691120727722, 0, 0] = some [0, 0] :=
  claim_C3_roundtrip (fun b => b) (fun b => b) (fun _ => rfl) none [0, 0]
    [12008468691120727722, 0, 0] (by decide) (by decide)

/-- Claim C4: an init call whose key length differs from the variant's fixed
key size returns failure, does not install the key, and leaves the configured
key length untouched. -/
theorem claim_C4_init_bad_keylen (c : PROV_AES_WRAP_CTX) (key : List Nat)
    (keylen : Nat) (iv : Option (List Nat)) (ivlen : Nat) (enc : Bool)
    (h : keylen ≠ c.keylen) :
    (aes_wrap_init c (some key) keylen iv ivlen enc).2 = false
    ∧ (aes_wrap_init c (some key) keylen iv ivlen enc).1.ks = c.ks
    ∧ (aes_wrap_init c (some key) keylen iv ivlen enc).1.keylen = c.keylen := by
  cases iv <;> simp [aes_wrap_init, h]

/-- Witness for claim C4: a 5-byte key offered to the 128-bit (16-byte)
variant is rejected and no key schedule is installed. -/
theorem claim_C4_init_bad_keylen_witness :
    (aes_wrap_init (aes_wrap_newctx 128 64 64 0 0) (some [0]) 5 none 0 true).2 = false
    ∧ (aes_wrap_init (aes_wrap_newctx 128 64 64 0 0) (some [0]) 5 none 0 true).1.ks
      = (aes_wrap_newctx 128 64 64 0 0).ks
    ∧ (aes_wrap_init (aes_wrap_newctx 128 64 64 0 0) (some [0]) 5 none 0 true).1.keylen
      = (aes_wrap_newctx 128 64 64 0 0).keylen :=
  claim_C4_init_bad_keylen (aes_wrap_newctx 128 64 64 0 0) [0] 5 none 0 true (by decide)

/-- Counterexample to claim C5: the code checks the output capacity against
the input length, not against the queried size.  For a 16-byte plain-mode
wrap the query reports 24 bytes, yet a call with a 16-byte output capacity
does not fail with a buffer-too-small error: it succeeds (status 1) and
writes 24 bytes of output. -/
theorem claim_C5_counterexample :
    aes_wrap_cipher_internal (fun b => b) (fun b => b) wrapCtx128 false
      (some (List.replicate 16 0)) = (24, none)
    ∧ (16 : Nat) < 24
    ∧ aes_wrap_cipher (fun b => b) (fun b => b) wrapCtx128 true 16
        (some (List.replicate 16 0))
      = (1, some 24, some ([166, 166, 166, 166, 166, 166, 166, 170]
                            ++ List.replicate 16 0)) := by decide

/-- Claim C5 as amended: if the supplied output capacity is smaller than the
input length, the call fails with the buffer-too-small error, reports no
output length and writes no output. -/
theorem claim_C5_buffer_check (E D : Nat × Nat → Nat × Nat)
    (c : PROV_AES_WRAP_CTX) (outPresent : Bool) (outsize : Nat)
    (inp : Option (List Nat)) (h : outsize < (inp.getD []).length) :
    aes_wrap_cipher E D c outPresent outsize inp = (-1, none, none) := by
  simp [aes_wrap_cipher, h]

/-- Witness for the amended claim C5: capacity 0 against an 8-byte input
fails cleanly. -/
theorem claim_C5_buffer_check_witness :
    aes_wrap_cipher (fun b => b) (fun b => b) wrapCtx128 true 0
      (some (List.replicate 8 0)) = (-1, none, none) :=
  claim_C5_buffer_check (fun b => b) (fun b => b) wrapCtx128 true 0
    (some (List.replicate 8 0)) (by decide)

/-- Claim C6: the padding flag is fixed at session creation as "configured IV
length equals 4 bytes" (so a 4-byte IV length gives the padded variant and an
8-byte one the plain variant), and no sequence of session operations —
including init calls that overwrite the IV length with a caller value — ever
changes it. -/
theorem claim_C6_pad_fixed (E D : Nat × Nat → Nat × Nat)
    (kbits blkbits ivbits mode flags : Nat) (ops : List SessionOp) :
    (applyOps E D (aes_wrap_newctx kbits blkbits ivbits mode flags) ops).pad
      = decide (ivbits / 8 = 4) := by
  rw [applyOps_pad]
  rfl

/-- Claim C7: a SetParams call never mutates the session, and it succeeds
exactly when the key-length parameter is absent or requests the
already-configured key length. -/
theorem claim_C7_set_params (c : PROV_AES_WRAP_CTX) (p : Option (Option Nat)) :
    (aes_wrap_set_ctx_params c p).1 = c
    ∧ ((aes_wrap_set_ctx_params c p).2 = true ↔ p = none ∨ p = some (some c.keylen)) := by
  cases p with
  | none => simp [aes_wrap_set_ctx_params]
  | some q => cases q with
    | none => simp [aes_wrap_set_ctx_params]
    | some k =>
      by_cases h : c.keylen = k
      · subst h; simp [aes_wrap_set_ctx_params]
      · simp [aes_wrap_set_ctx_params, h, Ne.symm h]

/-- Counterexample to claim C8: the direction is not fixed at session
construction: a freshly constructed context carries the zero-initialized
decrypt flag, an encrypt init sets it to encrypt, and a later decrypt init on
the same session flips it back — init calls set the direction rather than
re-assert a fixed one. -/
theorem claim_C8_counterexample :
    (aes_wrap_newctx 128 64 64 0 0).enc = false
    ∧ (aes_wrap_einit (aes_wrap_newctx 128 64 64 0 0) none 0 none 0).1.enc = true
    ∧ (aes_wrap_dinit
        (aes_wrap_einit (aes_wrap_newctx 128 64 64 0 0) none 0 none 0).1
        none 0 none 0).1.enc = false := by decide

/-- Claim C8 as amended: each init call sets the session's direction to its
own entry point's direction (encrypt for einit, decrypt for dinit),
unconditionally and regardless of the state left by construction or by
earlier calls; hence after any sequence of init calls the direction is that
of the most recent one. -/
theorem claim_C8_direction_last_init (c : PROV_AES_WRAP_CTX)
    (key : Option (List Nat)) (keylen : Nat) (iv : Option (List Nat)) (ivlen : Nat) :
    (aes_wrap_einit c key keylen iv ivlen).1.enc = true
    ∧ (aes_wrap_dinit c key keylen iv ivlen).1.enc = false := by
  cases key <;> cases iv <;>
    simp [aes_wrap_einit, aes_wrap_dinit, aes_wrap_init] <;> split <;> simp

/-- Claim C9: Finalize performs no transformation: for every session and
output buffer it leaves both untouched, reports exactly zero bytes written,
and returns success. -/
theorem claim_C9_final_noop (c : PROV_AES_WRAP_CTX) (out : List Nat) (outsize : Nat) :
    aes_wrap_final c out outsize = (c, out, 0, 1) := rfl

/-- Claim C10: an init call carrying both an IV and a wrongly-sized key fails,
yet the session has already been mutated: direction, block-cipher selector and
wrap-function selector are updated, the IV is copied in with the IV-set flag
raised and the IV length overwritten — only the key schedule is untouched. -/
theorem claim_C10_init_not_atomic (c : PROV_AES_WRAP_CTX) (key : List Nat)
    (keylen : Nat) (ivb : List Nat) (ivlen : Nat) (enc : Bool)
    (h : keylen ≠ c.keylen) :
    (aes_wrap_init c (some key) keylen (some ivb) ivlen enc).2 = false
    ∧ (aes_wrap_init c (some key) keylen (some ivb) ivlen enc).1 =
      { c with
        enc := enc,
        block := some (if enc then BlockSel.aesEncrypt else BlockSel.aesDecrypt),
        wrapfn := some (if c.pad then (if enc then WrapSel.wrapPad else WrapSel.unwrapPad)
                        else (if enc then WrapSel.wrapPlain else WrapSel.unwrapPlain)),
        ivlen := ivlen,
        iv := ivb.take ivlen ++ c.iv.drop ivlen,
        iv_set := true } := by
  simp [aes_wrap_init, h]

/-- Witness for claim C10: a failing init (3-byte key on the 16-byte variant)
with an 8-byte IV leaves the fresh session with direction, selectors and IV
already updated. -/
theorem claim_C10_init_not_atomic_witness :
    (aes_wrap_init (aes_wrap_newctx 128 64 64 0 0) (some [1]) 3
      (some (List.replicate 8 7)) 8 true).2 = false
    ∧ (aes_wrap_init (aes_wrap_newctx 128 64 64 0 0) (some [1]) 3
        (some (List.replicate 8 7)) 8 true).1 =
      { aes_wrap_newctx 128 64 64 0 0 with
        enc := true,
        block := some (if true then BlockSel.aesEncrypt else BlockSel.aesDecrypt),
        wrapfn := some (if (aes_wrap_newctx 128 64 64 0 0).pad
                        then (if true then WrapSel.wrapPad else WrapSel.unwrapPad)
                        else (if true then WrapSel.wrapPlain else WrapSel.unwrapPlain)),
        ivlen := 8,
        iv := (List.replicate 8 7).take 8 ++ (aes_wrap_newctx 128 64 64 0 0).iv.drop 8,
        iv_set := true } :=
  claim_C10_init_not_atomic (aes_wrap_newctx 128 64 64 0 0) [1] 3
    (List.replicate 8 7) 8 true (by decide)

